import Mathlib

/-!
Shallow embedding of the Movie Explorer app's data-fetching and fallback
layer (src/services/api.js) and of the List View debounce effect
(src/pages/Home.jsx), together with theorems settling the specification
claims about them.

Modelling conventions:
* A JavaScript value that is either a string or null/undefined is `JsStr`.
* A thrown JavaScript exception is an `Except` error (`JsErr`); an async
  function's resolved value is `Except.ok`, a rejected promise is
  `Except.error`.
* The outcome of one remote HTTP interaction is a `RemoteOutcome`
  parameter: a transport-level failure, or a response with an `ok` flag
  and a body that either fails JSON parsing (`none`) or parses to the
  payload the code extracts (`some`).
* The configured credential is `key : Option String`: `none` when the
  environment variable read by the module is unset (JS `undefined`),
  `some k` when it is set to the string `k`.
* Each API function additionally reports whether it attempted the
  network call (`networkAttempted`), so that "no remote call is made"
  is an observable property of the embedding.
* String primitives used by the code (`trim`, `toLowerCase`,
  `includes`, number rendering) are given explicit structural
  definitions over the character list of the string, matching the
  ECMAScript behaviour on the ASCII data involved.
* Numbers that the code only compares or renders are `Nat` (ids) and
  `Rat` (vote averages, exact-arithmetic model of JS numbers); the
  pagination parameter is dropped because it only affects the request
  URL, never the control flow.
-/

/-- A JavaScript string-or-nullish value. -/
inductive JsStr where
  | str (s : String)
  | nullOrUndefined
deriving DecidableEq

/-- A thrown JavaScript exception: `TypeError` (e.g. calling a string
method on null/undefined) or `new Error(msg)`. -/
inductive JsErr where
  | typeError
  | error (msg : String)
deriving DecidableEq

deriving instance DecidableEq for Except

/-- JS `s.trim()` on a string: strip leading and trailing whitespace. -/
def trimString (s : String) : String :=
  String.mk (((s.data.dropWhile Char.isWhitespace).reverse.dropWhile
      Char.isWhitespace).reverse)

/-- JS `s.toLowerCase()` on a string (ASCII case mapping). -/
def toLowerString (s : String) : String :=
  String.mk (s.data.map Char.toLower)

/-- JS `x.trim()`: trims a string, throws `TypeError` on null/undefined. -/
def trimJS : JsStr → Except JsErr String
  | JsStr.str s => Except.ok (trimString s)
  | JsStr.nullOrUndefined => Except.error JsErr.typeError

/-- JS `x.toLowerCase()`: lowercases a string, throws `TypeError` on
null/undefined. -/
def toLowerCaseJS : JsStr → Except JsErr String
  | JsStr.str s => Except.ok (toLowerString s)
  | JsStr.nullOrUndefined => Except.error JsErr.typeError

/-- JS `hay.includes(needle)`: substring containment. -/
def includes (hay needle : String) : Bool :=
  (hay.data.tails).any (fun t => List.isPrefixOf needle.data t)

/-- Outcome of one remote HTTP interaction, seen from the client:
transport error (`fetch` rejects), or a response with its `ok` flag and
a body that is malformed JSON (`none`) or parses to the value the code
extracts from it (`some`). -/
inductive RemoteOutcome (α : Type) where
  | transportError
  | httpResponse (ok : Bool) (body : Option α)
deriving DecidableEq

/-- An outcome on which the code's happy path cannot complete: transport
error, non-success status, or malformed JSON body. -/
def RemoteOutcome.isFailure {α : Type} : RemoteOutcome α → Bool
  | RemoteOutcome.transportError => true
  | RemoteOutcome.httpResponse ok body => !ok || body.isNone

/-- Result of one call into the catalog client: the settled promise
(`result`) and whether a network request was attempted. -/
structure ApiCall (α : Type) where
  result : Except JsErr α
  networkAttempted : Bool
deriving DecidableEq

/-- A movie record, with the fields the fallback dataset carries. -/
structure Movie where
  id : Nat
  title : String
  poster_path : String
  backdrop_path : String
  overview : String
  vote_average : Rat
  release_date : String
deriving DecidableEq

/-- First record of the fallback dataset (vote average 8.7). -/
def shawshank : Movie :=
  { id := 1
    title := "The Shawshank Redemption"
    poster_path := "/q6y0Go1tsGEsmtFryDOJo3dEmqu.jpg"
    backdrop_path := "/kXfqcdQKsToO0OUXHcrrNCHDBzO.jpg"
    overview := "Framed in the 1940s for the double murder of his wife and her lover, upstanding banker Andy Dufresne begins a new life at the Shawshank prison."
    vote_average := mkRat 87 10
    release_date := "1994-09-23" }

/-- Second record of the fallback dataset (vote average 8.7). -/
def godfather : Movie :=
  { id := 2
    title := "The Godfather"
    poster_path := "/3bhkrj58Vtu7enYsRolD1fZdja1.jpg"
    backdrop_path := "/tmU7GeKVybMWFButWEGl2M4GeiP.jpg"
    overview := "Spanning the years 1945 to 1955, a chronicle of the fictional Italian-American Corleone crime family."
    vote_average := mkRat 87 10
    release_date := "1972-03-14" }

/-- Third record of the fallback dataset (vote average 8.5). -/
def darkKnight : Movie :=
  { id := 3
    title := "The Dark Knight"
    poster_path := "/qJ2tW6WMUDux911r6m7haRef0WH.jpg"
    backdrop_path := "/hkBaDkMWbLaf8B1lsWsKX7Ew3Xq.jpg"
    overview := "Batman raises the stakes in his war on crime with the help of Lt. Jim Gordon and District Attorney Harvey Dent."
    vote_average := mkRat 85 10
    release_date := "2008-07-16" }

/-- Fourth record of the fallback dataset (vote average 8.5). -/
def pulpFiction : Movie :=
  { id := 4
    title := "Pulp Fiction"
    poster_path := "/d5iIlFn5s0ImszYzBPb8JPIfbXD.jpg"
    backdrop_path := "/4cDFJr4HnXN5AdPw4AKrmLlMWdO.jpg"
    overview := "A burger-loving hit man, his philosophical partner, and a drug-addled gangster's moll."
    vote_average := mkRat 85 10
    release_date := "1994-09-10" }

/-- Fifth record of the fallback dataset (vote average 8.4). -/
def forrestGump : Movie :=
  { id := 5
    title := "Forrest Gump"
    poster_path := "/arw2vcBveWOVZr6pxd9XTd1TdQa.jpg"
    backdrop_path := "/7c9UVPPiTPltouxRVY6N9uUaHNd.jpg"
    overview := "A man with a low IQ has accomplished great things in his life and been present during significant historic events."
    vote_average := mkRat 84 10
    release_date := "1994-06-23" }

/-- Sixth record of the fallback dataset (vote average 8.4). -/
def inception : Movie :=
  { id := 6
    title := "Inception"
    poster_path := "/9gk7adHYeDvHkCSEqAvQNLV5Uge.jpg"
    backdrop_path := "/s3TBrRGB1iav7gFOCNx3H31MoES.jpg"
    overview := "Cobb, a skilled thief who commits corporate espionage by infiltrating the subconscious of his targets."
    vote_average := mkRat 84 10
    release_date := "2010-07-15" }

/-- The static fallback dataset `DUMMY_MOVIES` from src/services/api.js. -/
def DUMMY_MOVIES : List Movie :=
  [shawshank, godfather, darkKnight, pulpFiction, forrestGump, inception]

/-- `IMAGE_BASE_URL` from src/services/api.js. -/
def IMAGE_BASE_URL : String := "https://image.tmdb.org/t/p"

/-- The sentinel placeholder value compared against in every API
function: `API_KEY === 'YOUR_TMDB_API_KEY'`. -/
def placeholderKey : String := "YOUR_TMDB_API_KEY"

/-- JS falsiness of a string-or-undefined value (`!path`): true for
null/undefined and for the empty string. -/
def strFalsy : Option String → Bool
  | none => true
  | some s => s = ""

/-- `getImageUrl(path, size)` from src/services/api.js: placeholder URL
when `path` is falsy, else the image host base, a slash, the size token
and the path concatenated (the source's default size is `w500`; the
embedding passes the size explicitly). -/
def getImageUrl (path : Option String) (size : String) : String :=
  if strFalsy path then "https://via.placeholder.com/500x750?text=No+Image"
  else IMAGE_BASE_URL ++ "/" ++ size ++ (path.getD "")

/-- The `try`-block of `fetchPopularMovies`: the sentinel check, then
the fetch; a thrown exception is an `Except.error`.  Second component:
whether the fetch was attempted. -/
def fetchPopularMoviesTry (key : Option String)
    (outcome : RemoteOutcome (List Movie)) :
    Except JsErr (List Movie) × Bool :=
  if key = some placeholderKey then (Except.ok DUMMY_MOVIES, false)
  else
    match outcome with
    | RemoteOutcome.transportError =>
        (Except.error (JsErr.error "fetch failed"), true)
    | RemoteOutcome.httpResponse ok body =>
        if ok then
          match body with
          | none => (Except.error (JsErr.error "JSON parse error"), true)
          | some rs => (Except.ok rs, true)
        else (Except.error (JsErr.error "Failed to fetch popular movies"), true)

/-- `fetchPopularMovies` from src/services/api.js: the `try`-block, with
every thrown exception caught and replaced by the fallback dataset. -/
def fetchPopularMovies (key : Option String)
    (outcome : RemoteOutcome (List Movie)) : ApiCall (List Movie) :=
  let t := fetchPopularMoviesTry key outcome
  match t.1 with
  | Except.ok v => { result := Except.ok v, networkAttempted := t.2 }
  | Except.error _ => { result := Except.ok DUMMY_MOVIES, networkAttempted := t.2 }

/-- The case-insensitive substring filter both fallback branches of
`searchMovies` apply to the static dataset. -/
def fallbackFilter (q : String) : List Movie :=
  DUMMY_MOVIES.filter (fun m => includes (toLowerString m.title) (toLowerString q))

/-- The `try`-block of `searchMovies`: `query.trim()` (throws on a
non-string query), the empty-query early return, the sentinel check
with the fallback filter, then the fetch. -/
def searchMoviesTry (key : Option String)
    (outcome : RemoteOutcome (List Movie)) (query : JsStr) :
    Except JsErr (List Movie) × Bool :=
  match query with
  | JsStr.nullOrUndefined => (Except.error JsErr.typeError, false)
  | JsStr.str s =>
    if trimString s = "" then (Except.ok [], false)
    else if key = some placeholderKey then (Except.ok (fallbackFilter s), false)
    else
      match outcome with
      | RemoteOutcome.transportError =>
          (Except.error (JsErr.error "fetch failed"), true)
      | RemoteOutcome.httpResponse ok body =>
          if ok then
            match body with
            | none => (Except.error (JsErr.error "JSON parse error"), true)
            | some rs => (Except.ok rs, true)
          else (Except.error (JsErr.error "Failed to search movies"), true)

/-- The `catch`-block of `searchMovies`: it filters the fallback dataset
with `query.toLowerCase()` — this call runs outside any handler, so for
a non-string `query` it throws and the promise rejects. -/
def searchMoviesCatch (query : JsStr) : Except JsErr (List Movie) :=
  match toLowerCaseJS query with
  | Except.error e => Except.error e
  | Except.ok ql =>
      Except.ok (DUMMY_MOVIES.filter (fun m => includes (toLowerString m.title) ql))

/-- `searchMovies` from src/services/api.js: the `try`-block with every
thrown exception routed to the `catch`-block. -/
def searchMovies (key : Option String)
    (outcome : RemoteOutcome (List Movie)) (query : JsStr) :
    ApiCall (List Movie) :=
  let t := searchMoviesTry key outcome query
  match t.1 with
  | Except.ok v => { result := Except.ok v, networkAttempted := t.2 }
  | Except.error _ => { result := searchMoviesCatch query, networkAttempted := t.2 }

/-- The longest leading run of decimal digits, as a number; `none` when
there is no leading digit. -/
def leadingDigits (cs : List Char) : Option Nat :=
  let ds := cs.takeWhile Char.isDigit
  if ds = [] then none
  else some (ds.foldl (fun acc c => acc * 10 + (c.toNat - Char.toNat '0')) 0)

/-- JS `parseInt(s)` restricted to base 10 (the form the call sites use:
optional leading whitespace, optional sign, longest digit prefix);
`none` stands for `NaN`. -/
def parseIntJS (s : String) : Option Int :=
  match s.data.dropWhile Char.isWhitespace with
  | '-' :: rest => (leadingDigits rest).map (fun n => -(n : Int))
  | '+' :: rest => (leadingDigits rest).map (fun n => (n : Int))
  | cs => (leadingDigits cs).map (fun n => (n : Int))

/-- The fallback lookup both failure branches of `fetchMovieDetails`
perform: `DUMMY_MOVIES.find(m => m.id === parseInt(movieId)) || DUMMY_MOVIES[0]`. -/
def detailFallbackRecord (movieId : String) : Movie :=
  match DUMMY_MOVIES.find? (fun m => parseIntJS movieId == some (m.id : Int)) with
  | some m => m
  | none => DUMMY_MOVIES.headD shawshank

/-- The `try`-block of `fetchMovieDetails`: sentinel check with the
fallback lookup, then the fetch returning the parsed record directly. -/
def fetchMovieDetailsTry (key : Option String)
    (outcome : RemoteOutcome Movie) (movieId : String) :
    Except JsErr Movie × Bool :=
  if key = some placeholderKey then
    (Except.ok (detailFallbackRecord movieId), false)
  else
    match outcome with
    | RemoteOutcome.transportError =>
        (Except.error (JsErr.error "fetch failed"), true)
    | RemoteOutcome.httpResponse ok body =>
        if ok then
          match body with
          | none => (Except.error (JsErr.error "JSON parse error"), true)
          | some m => (Except.ok m, true)
        else (Except.error (JsErr.error "Failed to fetch movie details"), true)

/-- `fetchMovieDetails` from src/services/api.js: the `try`-block with
every thrown exception caught and replaced by the fallback lookup. -/
def fetchMovieDetails (key : Option String)
    (outcome : RemoteOutcome Movie) (movieId : String) : ApiCall Movie :=
  let t := fetchMovieDetailsTry key outcome movieId
  match t.1 with
  | Except.ok v => { result := Except.ok v, networkAttempted := t.2 }
  | Except.error _ =>
      { result := Except.ok (detailFallbackRecord movieId), networkAttempted := t.2 }

/-- The decimal digit character for a value below ten. -/
def digitChar (n : Nat) : Char :=
  if n = 0 then '0' else if n = 1 then '1' else if n = 2 then '2'
  else if n = 3 then '3' else if n = 4 then '4' else if n = 5 then '5'
  else if n = 6 then '6' else if n = 7 then '7' else if n = 8 then '8'
  else '9'

/-- Decimal digit list of a natural number, with explicit fuel (the
fuel `n + 1` always suffices). -/
def natDigitsAux : Nat → Nat → List Char
  | 0, _ => []
  | fuel + 1, n =>
    if n < 10 then [digitChar n]
    else natDigitsAux fuel (n / 10) ++ [digitChar (n % 10)]

/-- Decimal rendering of a natural number. -/
def natToStr (n : Nat) : String := String.mk (natDigitsAux (n + 1) n)

/-- Rendering of a rational to one decimal digit, the exact-arithmetic
model of JS `x.toFixed(1)`: round `q * 10` to the nearest integer,
ties to the larger value (the ECMAScript rule), then print with the
last digit after a decimal point. -/
def toFixed1 (q : Rat) : String :=
  let n : Int := Int.fdiv (20 * q.num + (q.den : Int)) (2 * (q.den : Int))
  if n < 0 then
    "-" ++ natToStr (n.natAbs / 10) ++ "." ++ natToStr (n.natAbs % 10)
  else
    natToStr (n.toNat / 10) ++ "." ++ natToStr (n.toNat % 10)

/-- `formatRating` from src/services/api.js: `"N/A"` for a falsy rating
(absent, or `0`), else `rating.toFixed(1)`. -/
def formatRating (rating : Option Rat) : String :=
  match rating with
  | none => "N/A"
  | some r => if r = 0 then "N/A" else toFixed1 r

/-- Observable state of the Home (List View) component's search
machinery, src/pages/Home.jsx: the pending debounce timer (its fire
time and the query it will search for), the `isSearching` flag, and the
log of issued `searchMovies` calls (fire time and query) and
`fetchPopularMovies` calls (trigger time). -/
structure HomeState where
  pending : Option (Nat × String)
  isSearching : Bool
  searchCalls : List (Nat × String)
  popularCalls : List Nat
deriving DecidableEq

/-- If the pending debounce timer is due at or before `now`, it fires:
`handleSearch` runs, setting `isSearching` and issuing one
`searchMovies` call with the query current at fire time. -/
def fireIfDue (s : HomeState) (now : Nat) : HomeState :=
  match s.pending with
  | none => s
  | some tq =>
    if tq.1 ≤ now then
      { pending := none
        isSearching := true
        searchCalls := s.searchCalls ++ [tq]
        popularCalls := s.popularCalls }
    else s

/-- The debounce effect body run on a change of `searchQuery` to `q` at
time `t` (src/pages/Home.jsx lines 51-69): the cleanup of the previous
effect run has cancelled any pending timer; a non-empty trimmed query
schedules `handleSearch` 500 ms ahead; an empty one, while
`isSearching`, clears search mode and issues one `fetchPopularMovies`
call. -/
def processKey (s : HomeState) (t : Nat) (q : String) : HomeState :=
  if trimString q = "" then
    if s.isSearching then
      { pending := none
        isSearching := false
        searchCalls := s.searchCalls
        popularCalls := s.popularCalls ++ [t] }
    else { s with pending := none }
  else { s with pending := some (t + 500, q) }

/-- One keystroke event at time `t` with new query value `q`: any timer
already due fires first, then the effect for the changed query runs. -/
def stepKey (s : HomeState) (e : Nat × String) : HomeState :=
  processKey (fireIfDue s e.1) e.1 e.2

/-- After the last keystroke, time passes and any still-pending timer
fires. -/
def flushTimer (s : HomeState) : HomeState :=
  match s.pending with
  | none => s
  | some tq =>
    { pending := none
      isSearching := true
      searchCalls := s.searchCalls ++ [tq]
      popularCalls := s.popularCalls }

/-- Run a time-ordered sequence of keystroke events from a state, then
let the remaining quiet period elapse. -/
def runKeystrokes (s : HomeState) (events : List (Nat × String)) : HomeState :=
  flushTimer (events.foldl stepKey s)

/-- The Home component's state right after mount: no timer, not
searching, and the mount effect has issued the initial
`fetchPopularMovies` call (at time 0). -/
def initialHomeState : HomeState :=
  { pending := none
    isSearching := false
    searchCalls := []
    popularCalls := [0] }

/-- C1: `fetchPopularMovies` never fails observably: for every
credential configuration and every remote outcome the returned promise
resolves, and whenever the sentinel check fires or the remote
interaction fails (transport error, non-success status, malformed JSON
body — which is also what a request made with a missing credential runs
into) the resolved value is exactly the static fallback dataset
`DUMMY_MOVIES`. -/
theorem fetchPopularMovies_never_fails (key : Option String)
    (outcome : RemoteOutcome (List Movie)) :
    (∃ rs, (fetchPopularMovies key outcome).result = Except.ok rs) ∧
    ((key = some placeholderKey ∨ outcome.isFailure = true) →
      (fetchPopularMovies key outcome).result = Except.ok DUMMY_MOVIES) := by
  by_cases hk : key = some placeholderKey
  · simp [fetchPopularMovies, fetchPopularMoviesTry, hk]
  · cases outcome with
    | transportError =>
        simp [fetchPopularMovies, fetchPopularMoviesTry, hk]
    | httpResponse ok body =>
        cases ok <;> cases body <;>
          simp [fetchPopularMovies, fetchPopularMoviesTry, hk,
            RemoteOutcome.isFailure]

/-- Witness for C1 at a concrete failing input: sentinel key, remote
unreachable. -/
theorem fetchPopularMovies_never_fails_witness :
    (fetchPopularMovies (some placeholderKey)
        RemoteOutcome.transportError).result = Except.ok DUMMY_MOVIES :=
  (fetchPopularMovies_never_fails (some placeholderKey)
      RemoteOutcome.transportError).2 (Or.inl rfl)

/-- C2 (evidence of the code bug): with no credential configured the
environment variable is unset, so the key is `none`, not the
placeholder string; the sentinel comparison is therefore false and
`fetchPopularMovies` does attempt the remote call.  The 6 fallback
records are still produced, but only through the catch path after the
failing request — contradicting the claim that no live network call is
attempted. -/
theorem fetchPopularMovies_missing_key_attempts_network :
    (fetchPopularMovies none
        (RemoteOutcome.httpResponse false none)).networkAttempted = true ∧
    (fetchPopularMovies none
        (RemoteOutcome.httpResponse false none)).result
      = Except.ok DUMMY_MOVIES := by decide

/-- C3: for every query string whose trimmed form is empty,
`searchMovies` returns the empty sequence and attempts no remote call,
for every credential configuration and every remote outcome. -/
theorem searchMovies_blank_query (key : Option String)
    (outcome : RemoteOutcome (List Movie)) (s : String)
    (h : trimString s = "") :
    searchMovies key outcome (JsStr.str s)
      = { result := Except.ok [], networkAttempted := false } := by
  simp [searchMovies, searchMoviesTry, h]

/-- Witness for C3 on a whitespace-only query with no key configured. -/
theorem searchMovies_blank_query_witness :
    searchMovies none RemoteOutcome.transportError (JsStr.str "   ")
      = { result := Except.ok [], networkAttempted := false } :=
  searchMovies_blank_query none RemoteOutcome.transportError "   " (by decide)

/-- C4: for every query with non-empty trim, in fallback mode (sentinel
key — then without a network attempt — or any remote failure under any
other key) `searchMovies` resolves with exactly the fallback records
whose lowercased title contains the lowercased query as a substring, in
the dataset's order (`fallbackFilter`); on the query "inception" the
result is exactly the single record titled "Inception". -/
theorem searchMovies_fallback_filter (s : String) (key : Option String)
    (outcome : RemoteOutcome (List Movie)) (h : trimString s ≠ "") :
    (searchMovies (some placeholderKey) outcome (JsStr.str s)
        = { result := Except.ok (fallbackFilter s), networkAttempted := false }) ∧
    (outcome.isFailure = true →
      (searchMovies key outcome (JsStr.str s)).result
        = Except.ok (fallbackFilter s)) ∧
    (searchMovies (some placeholderKey) outcome
        (JsStr.str "inception")).result = Except.ok [inception] := by
  refine ⟨?_, ?_, ?_⟩
  · simp [searchMovies, searchMoviesTry, h]
  · intro hfail
    by_cases hk : key = some placeholderKey
    · simp [searchMovies, searchMoviesTry, h, hk]
    · cases outcome with
      | transportError =>
          simp [searchMovies, searchMoviesTry, searchMoviesCatch,
            toLowerCaseJS, fallbackFilter, h, hk]
      | httpResponse ok body =>
          cases ok <;> cases body <;>
            simp_all [searchMovies, searchMoviesTry, searchMoviesCatch,
              toLowerCaseJS, fallbackFilter, RemoteOutcome.isFailure, hk]
  · have h1 : searchMovies (some placeholderKey) outcome (JsStr.str "inception")
        = { result := Except.ok (fallbackFilter "inception"),
            networkAttempted := false } := by
      simp [searchMovies, searchMoviesTry,
        show trimString "inception" ≠ "" by decide]
    rw [h1]
    decide

/-- Witness for C4: searching "inception" with the sentinel key. -/
theorem searchMovies_fallback_filter_witness :
    (searchMovies (some placeholderKey) RemoteOutcome.transportError
        (JsStr.str "inception")).result = Except.ok [inception] :=
  (searchMovies_fallback_filter "inception" (some placeholderKey)
      RemoteOutcome.transportError (by decide)).2.2

/-- C5: `fetchMovieDetails` always resolves; in fallback mode (sentinel
key, or any remote failure) it resolves with the fallback lookup, which
yields the fallback record whose id equals the requested id parsed as
an integer, and the first fallback record (id 1, "The Shawshank
Redemption") when no fallback id matches — absence is never signaled as
an error. -/
theorem fetchMovieDetails_fallback (key : Option String)
    (outcome : RemoteOutcome Movie) (movieId : String) :
    (∃ m, (fetchMovieDetails key outcome movieId).result = Except.ok m) ∧
    ((key = some placeholderKey ∨ outcome.isFailure = true) →
      (fetchMovieDetails key outcome movieId).result
        = Except.ok (detailFallbackRecord movieId)) ∧
    (∀ m ∈ DUMMY_MOVIES, parseIntJS movieId = some (m.id : Int) →
      detailFallbackRecord movieId = m) ∧
    ((∀ m ∈ DUMMY_MOVIES, parseIntJS movieId ≠ some (m.id : Int)) →
      detailFallbackRecord movieId = shawshank ∧ shawshank.id = 1 ∧
        shawshank.title = "The Shawshank Redemption") := by
  refine ⟨?_, ?_, ?_, ?_⟩
  · by_cases hk : key = some placeholderKey
    · simp [fetchMovieDetails, fetchMovieDetailsTry, hk]
    · cases outcome with
      | transportError =>
          simp [fetchMovieDetails, fetchMovieDetailsTry, hk]
      | httpResponse ok body =>
          cases ok <;> cases body <;>
            simp [fetchMovieDetails, fetchMovieDetailsTry, hk]
  · intro hfb
    by_cases hk : key = some placeholderKey
    · simp [fetchMovieDetails, fetchMovieDetailsTry, hk]
    · cases outcome with
      | transportError =>
          simp [fetchMovieDetails, fetchMovieDetailsTry, hk]
      | httpResponse ok body =>
          cases ok <;> cases body <;>
            simp_all [fetchMovieDetails, fetchMovieDetailsTry,
              RemoteOutcome.isFailure, hk]
  · intro m hm hp
    simp only [DUMMY_MOVIES, List.mem_cons, List.not_mem_nil, or_false] at hm
    rcases hm with h | h | h | h | h | h <;>
      (subst h; unfold detailFallbackRecord; rw [hp]; decide)
  · intro hno
    have hnone : DUMMY_MOVIES.find?
        (fun m => parseIntJS movieId == some (m.id : Int)) = none := by
      rw [List.find?_eq_none]
      intro m hm
      simpa using hno m hm
    unfold detailFallbackRecord
    rw [hnone]
    exact ⟨rfl, rfl, rfl⟩

/-- Witness for C5: requesting id "3" with the sentinel key yields the
fallback record with id 3. -/
theorem fetchMovieDetails_fallback_witness :
    (fetchMovieDetails (some placeholderKey) RemoteOutcome.transportError
        "3").result = Except.ok darkKnight := by
  have h := fetchMovieDetails_fallback (some placeholderKey)
    RemoteOutcome.transportError "3"
  have h2 := h.2.1 (Or.inl rfl)
  have h3 := h.2.2.1 darkKnight (by decide) (by decide)
  rw [h2, h3]

/-- Every rendering produced by `toFixed1` contains a decimal point. -/
lemma toFixed1_mem_dot (q : Rat) : '.' ∈ (toFixed1 q).data := by
  simp only [toFixed1]
  split
  · rw [String.data_append, String.data_append, String.data_append]
    exact List.mem_append_left _ (List.mem_append_right _ (by decide))
  · rw [String.data_append, String.data_append]
    exact List.mem_append_left _ (List.mem_append_right _ (by decide))

/-- C6: `formatRating` maps the absent rating and the rating `0` (the
falsy numeric inputs) to the fixed string "N/A", and every non-zero
rating to its one-decimal-digit rendering `toFixed1` — in particular
never to "N/A"; on 8.7 it renders "8.7". -/
theorem formatRating_spec :
    formatRating none = "N/A" ∧
    formatRating (some 0) = "N/A" ∧
    formatRating (some (mkRat 87 10)) = "8.7" ∧
    (∀ q : Rat, q ≠ 0 → formatRating (some q) = toFixed1 q) ∧
    (∀ q : Rat, q ≠ 0 → formatRating (some q) ≠ "N/A") := by
  refine ⟨rfl, by decide, by decide, ?_, ?_⟩
  · intro q hq
    simp [formatRating, hq]
  · intro q hq hcontra
    rw [formatRating, if_neg hq] at hcontra
    have hdot := toFixed1_mem_dot q
    rw [hcontra] at hdot
    exact absurd hdot (by decide)

/-- Witness for C6 at the non-zero rating 8.7. -/
theorem formatRating_spec_witness :
    formatRating (some (mkRat 87 10)) = toFixed1 (mkRat 87 10) ∧
    formatRating (some (mkRat 87 10)) ≠ "N/A" :=
  ⟨formatRating_spec.2.2.2.1 (mkRat 87 10) (by decide),
   formatRating_spec.2.2.2.2 (mkRat 87 10) (by decide)⟩

/-- C7: `getImageUrl` returns the fixed placeholder URL for every
absent path under any size token, and for every present (non-empty)
path it concatenates the fixed image-host base, a slash, the size token
and the path, with no validation of the size token; in particular on
path "/abc.jpg" and size "w500" it yields the full TMDB image URL. -/
theorem getImageUrl_spec :
    (∀ size, getImageUrl none size
        = "https://via.placeholder.com/500x750?text=No+Image") ∧
    (∀ p size, p ≠ "" →
      getImageUrl (some p) size = "https://image.tmdb.org/t/p/" ++ size ++ p) ∧
    getImageUrl (some "/abc.jpg") "w500"
      = "https://image.tmdb.org/t/p/w500/abc.jpg" := by
  refine ⟨fun size => rfl, ?_, by decide⟩
  intro p size hp
  have hbase : IMAGE_BASE_URL ++ "/" = "https://image.tmdb.org/t/p/" := by decide
  simp only [getImageUrl, strFalsy, decide_eq_true_eq, if_neg hp, Option.getD_some]
  rw [hbase]

/-- Witness for C7 at a concrete present path. -/
theorem getImageUrl_spec_witness :
    getImageUrl (some "/abc.jpg") "w500"
      = "https://image.tmdb.org/t/p/" ++ "w500" ++ "/abc.jpg" :=
  getImageUrl_spec.2.1 "/abc.jpg" "w500" (by decide)

/-- C9: when the trimmed search text becomes empty, the debounce effect
cancels any pending timer; if search mode was active it additionally
resets it and issues exactly one `fetchPopularMovies` call, and if it
was not active it issues none. -/
theorem home_clear_query_resets (s : HomeState) (t : Nat) (q : String)
    (h : trimString q = "") :
    (processKey s t q).pending = none ∧
    (s.isSearching = true →
      processKey s t q =
        { pending := none, isSearching := false,
          searchCalls := s.searchCalls,
          popularCalls := s.popularCalls ++ [t] }) ∧
    (s.isSearching = false →
      processKey s t q = { s with pending := none }) := by
  cases hs : s.isSearching <;> simp [processKey, h, hs]

/-- Witness for C9: clearing the box at t = 700 while a timer is
pending and search mode is on. -/
theorem home_clear_query_resets_witness :
    processKey
      { pending := some (600, "abc"), isSearching := true,
        searchCalls := [(100, "x")], popularCalls := [0] } 700 ""
      = { pending := none, isSearching := false,
          searchCalls := [(100, "x")], popularCalls := [0, 700] } := by
  have h := (home_clear_query_resets
    { pending := some (600, "abc"), isSearching := true,
      searchCalls := [(100, "x")], popularCalls := [0] } 700 ""
    (by decide)).2.1 rfl
  simpa using h

/-- C10: `searchMovies` on a non-string (null/undefined) query rejects
with a `TypeError` without attempting a network call: the initial
`trim` throws inside the `try`, and the `catch`-block's fallback filter
calls `toLowerCase` on the query outside any handler. -/
theorem searchMovies_nonstring_rejects (key : Option String)
    (outcome : RemoteOutcome (List Movie)) :
    searchMovies key outcome JsStr.nullOrUndefined
      = { result := Except.error JsErr.typeError,
          networkAttempted := false } := rfl

/-- While every keystroke arrives within 500 ms of the previous one and
has non-empty trimmed text, folding the keystrokes over a state whose
timer was (re)started by the previous keystroke never fires the timer
and never logs a search: each step only replaces the pending timer, so
at the end the timer holds the last keystroke's time plus 500 and its
query. -/
lemma foldl_stepKey_busy (events : List (Nat × String)) :
    ∀ (t0 : Nat) (q0 : String) (s : HomeState),
      s.pending = some (t0 + 500, q0) →
      (∀ e ∈ events, trimString e.2 ≠ "") →
      List.Chain' (fun a b : Nat × String => b.1 < a.1 + 500)
        ((t0, q0) :: events) →
      events.foldl stepKey s =
        { s with
            pending := some
              ((((t0, q0) :: events).getLast (List.cons_ne_nil _ _)).1 + 500,
                (((t0, q0) :: events).getLast (List.cons_ne_nil _ _)).2) } := by
  induction events with
  | nil =>
      intro t0 q0 s hp _ _
      simp only [List.foldl_nil, List.getLast_singleton]
      cases s
      simp_all
  | cons e rest ih =>
      intro t0 q0 s hp hne hchain
      obtain ⟨t1, q1⟩ := e
      rw [List.chain'_cons] at hchain
      obtain ⟨hlt, hchain1⟩ := hchain
      have hfire : fireIfDue s t1 = s := by
        unfold fireIfDue
        rw [hp]
        simp only []
        rw [if_neg (by omega : ¬ (t0 + 500, q0).1 ≤ t1)]
      have hq1 : trimString q1 ≠ "" := hne (t1, q1) (by simp)
      have hstep : stepKey s (t1, q1) = { s with pending := some (t1 + 500, q1) } := by
        unfold stepKey
        rw [hfire]
        unfold processKey
        rw [if_neg hq1]
      rw [List.foldl_cons, hstep,
        ih t1 q1 _ rfl (fun e he => hne e (List.mem_cons_of_mem _ he)) hchain1]
      rw [List.getLast_cons (List.cons_ne_nil _ _)]

/-- C8: the debounce issues at most one search per 500 ms quiet period:
for any non-empty run of keystrokes, each with non-empty trimmed text
and each arriving less than 500 ms after the previous one, starting
from a state with no pending timer and no logged search, exactly one
`searchMovies` call is issued, 500 ms after the final keystroke,
carrying the final query value.  (For keystrokes at 0, 100 and 200 ms
this is one search at 700 ms.) -/
theorem home_debounce_single_search (e0 : Nat × String)
    (rest : List (Nat × String)) (s : HomeState)
    (hp : s.pending = none) (hc : s.searchCalls = [])
    (hne : ∀ e ∈ e0 :: rest, trimString e.2 ≠ "")
    (hchain : List.Chain' (fun a b : Nat × String => b.1 < a.1 + 500)
      (e0 :: rest)) :
    (runKeystrokes s (e0 :: rest)).searchCalls =
      [(((e0 :: rest).getLast (List.cons_ne_nil _ _)).1 + 500,
        ((e0 :: rest).getLast (List.cons_ne_nil _ _)).2)] := by
  obtain ⟨t0, q0⟩ := e0
  have hfire : fireIfDue s t0 = s := by
    unfold fireIfDue
    rw [hp]
  have hstep : stepKey s (t0, q0) = { s with pending := some (t0 + 500, q0) } := by
    unfold stepKey
    rw [hfire]
    unfold processKey
    rw [if_neg (hne (t0, q0) (by simp))]
  unfold runKeystrokes
  rw [List.foldl_cons, hstep,
    foldl_stepKey_busy rest t0 q0 _ rfl
      (fun e he => hne e (List.mem_cons_of_mem _ he)) hchain]
  unfold flushTimer
  simp [hc]

/-- Witness for C8: keystrokes "i", "in", "inc" at 0, 100, 200 ms from
the freshly mounted Home state produce exactly one search, at 700 ms,
for "inc". -/
theorem home_debounce_single_search_witness :
    (runKeystrokes initialHomeState
        [(0, "i"), (100, "in"), (200, "inc")]).searchCalls = [(700, "inc")] := by
  have h := home_debounce_single_search (0, "i") [(100, "in"), (200, "inc")]
    initialHomeState rfl rfl (by decide)
    (by norm_num [List.chain'_cons, List.chain'_singleton])
  rw [h]
  decide
